import Mathlib

/-!
Verification development for the ap_rest_client repository.

Part 1 embeds the agent dispatch core (thread builder and dispatch graph).
The ap_protocol module itself is not among the repository sources (only its
unit test imports it), so those definitions are modelled from the spec, as
their doc comments state.

Part 2 embeds the logging_config module directly from
src/ap_rest_client/logging_config.py: the JSONFormatter, the log-file
management and the dictConfig-style configuration dictionary. Python dicts
are modelled as insertion-ordered association lists with last-write-wins
updates; filesystem and logging side effects are modelled by explicit state
passing.
-/

/-- JSON values: payloads, response bodies and structured log records. -/
inductive Json where
  | null
  | str (s : String)
  | num (n : Int)
  | boolean (b : Bool)
  | arr (elems : List Json)
  | obj (fields : List (String × Json))

/-- First-match lookup in a JSON object field list (Python dict access). -/
def lookupField (fields : List (String × Json)) (key : String) : Option Json :=
  match fields with
  | [] => none
  | p :: rest => if p.1 = key then some p.2 else lookupField rest key

/-- Message roles from the data model: human, assistant or system. -/
inductive Role where
  | human
  | assistant
  | system
deriving DecidableEq, Repr

def roleToString : Role → String
  | .human => "human"
  | .assistant => "assistant"
  | .system => "system"

/-- A single conversation message: role plus text content. -/
structure Message where
  role : Role
  content : String
deriving DecidableEq, Repr

/-- JSON rendering of a message as a `{role, content}` object. -/
def messageToJson (m : Message) : Json :=
  .obj [("role", .str (roleToString m.role)), ("content", .str m.content)]

def roleFromString (s : String) : Option Role :=
  if s = "human" then some .human
  else if s = "assistant" then some .assistant
  else if s = "system" then some .system
  else none

/-- Parse a `{role, content}` JSON object back into a message. -/
def messageFromJson : Json → Option Message
  | .obj fields =>
    match lookupField fields "role", lookupField fields "content" with
    | some (.str r), some (.str c) =>
      match roleFromString r with
      | some role => some { role := role, content := c }
      | none => none
    | _, _ => none
  | _ => none

/-- Modelled from the spec: ThreadInput holds the ordered message sequence
plus the caller-supplied extended_info mapping (section 3, Data Model).
The ap_protocol module defining it is absent from the sources. -/
structure ThreadInput where
  messages : List Message
  extended_info : List (String × Json)

/-- Modelled from the spec: build_thread_input(messages, extended_info)
assembles a ThreadInput; pure data transformation, no I/O (section 4.1).
The ap_protocol module defining it is absent from the sources. -/
def build_thread_input (messages : List Message)
    (extended_info : List (String × Json)) : ThreadInput :=
  { messages := messages, extended_info := extended_info }

/-- Field list of the JSON thread payload: the reserved messages field first,
then each extended_info key as its own nested sub-key (section 4.1 collision
policy: caller keys are nested under their own sub-key, never merged flat). -/
def threadPayloadFields (t : ThreadInput) : List (String × Json) :=
  ("messages", .arr (t.messages.map messageToJson)) :: t.extended_info

def threadPayload (t : ThreadInput) : Json :=
  .obj (threadPayloadFields t)

/-- Modelled from the spec: RemoteAgentConfig describes the remote agent to
call (section 3). The models.graph_config module is absent from the sources. -/
structure RemoteAgentConfig where
  id : String
  url : String
  model : String
  metadata : List (String × Json)

/-- Modelled from the spec: GraphConfig, immutable per invocation (section 3). -/
structure GraphConfig where
  rest_timeout : Nat
  remote_agent : RemoteAgentConfig
  thread_id : Option String

/-- Outbound HTTP POST request as specified in section 6. -/
structure HttpRequest where
  url : String
  body : Json
  timeout : Nat

/-- Modelled from the spec: the dispatch node builds one POST request to the
configured url, with JSON body of thread payload, agent id, model and
metadata, bounded by rest_timeout (section 4.2 step 1, section 6). -/
def buildRequest (t : ThreadInput) (c : GraphConfig) : HttpRequest :=
  { url := c.remote_agent.url
    body := .obj [("thread", threadPayload t),
                  ("agent_id", .str c.remote_agent.id),
                  ("model", .str c.remote_agent.model),
                  ("metadata", .obj c.remote_agent.metadata)]
    timeout := c.rest_timeout }

/-- Outcome of one HTTP POST attempt: either a transport-level failure with
no response (connection failure, DNS, timeout), or a response carrying a
status code and a body. A body of none means the body is not valid JSON. -/
inductive HttpOutcome where
  | transportError (message : String)
  | response (status : Nat) (body : Option Json)

/-- The two terminal states of the dispatch graph (section 4.2). -/
inductive Terminal where
  | end_
  | exception
deriving DecidableEq, Repr

/-- Modelled from the spec: NodeResult, the value a node returns: the
terminal to transition to plus the update mapping (section 3). -/
structure NodeResult where
  next : Terminal
  update : List (String × Json)

/-- Content of the first entry with role assistant in output.messages
(section 4.2 step 6). -/
def assistantContent : List Json → Option String
  | [] => none
  | entry :: rest =>
    match entry with
    | .obj fields =>
      match lookupField fields "role" with
      | some (.str r) =>
        if r = "assistant" then
          match lookupField fields "content" with
          | some (.str c) => some c
          | _ => none
        else assistantContent rest
      | _ => assistantContent rest
    | _ => assistantContent rest

/-- The exception NodeResult for a schema failure (section 4.2 steps 5-6). -/
def schemaError (description : String) : NodeResult :=
  { next := .exception
    update := [("kind", .str "schema_error"), ("message", .str description)] }

/-- The end NodeResult carrying the extracted assistant message, or a
schema_error when output.messages holds no assistant entry (section 4.2
step 6). -/
def extractAssistant (entries : List Json) : NodeResult :=
  match assistantContent entries with
  | some content =>
    { next := .end_
      update := [("messages",
        .obj [("role", .str "assistant"), ("content", .str content)])] }
  | none => schemaError "no assistant message in output.messages"

/-- Classification of the output object: its messages field must be an
array, whose assistant entry is then extracted. -/
def classifyMessages (out : List (String × Json)) : NodeResult :=
  match lookupField out "messages" with
  | some (.arr entries) => extractAssistant entries
  | _ => schemaError "missing required field output.messages"

/-- Classification of a parsed response object: agent_id and output must be
present, output an object, then its messages are classified. -/
def classifyFields (fields : List (String × Json)) : NodeResult :=
  match lookupField fields "agent_id" with
  | none => schemaError "missing required field agent_id"
  | some _ =>
    match lookupField fields "output" with
    | some (.obj out) => classifyMessages out
    | _ => schemaError "missing required field output.messages"

/-- Modelled from the spec: classification of a success-status response body
(section 4.2 steps 5-6): unparseable body or missing agent_id or
output.messages is a schema_error; otherwise the first assistant message is
extracted (none present is also a schema_error) and the end terminal carries
the update with the assistant role and content. -/
def classifyBody (body : Option Json) : NodeResult :=
  match body with
  | none => schemaError "response body does not parse as JSON"
  | some (.obj fields) => classifyFields fields
  | some _ => schemaError "response body is not a JSON object"

/-- Success range for HTTP status codes. -/
def isSuccessStatus (status : Nat) : Bool :=
  decide (200 ≤ status) && decide (status < 300)

/-- Modelled from the spec: the remote_agent entry node (section 4.2 steps
3-6). Transport failure gives kind transport_error; a non-success status
gives kind upstream_error with the status code; a success status is
classified by classifyBody. Total function: no failure propagates out. -/
def node_remote_agent (outcome : HttpOutcome) : NodeResult :=
  match outcome with
  | .transportError message =>
    { next := .exception
      update := [("kind", .str "transport_error"), ("message", .str message)] }
  | .response status body =>
    if isSuccessStatus status then classifyBody body
    else
      { next := .exception
        update := [("kind", .str "upstream_error"),
                   ("upstream_status", .num (status : Int))] }

/-- The three named graph nodes (the test refers to the terminals by the
names end_node and exception_node). -/
inductive NodeName where
  | remote_agent
  | end_node
  | exception_node
deriving DecidableEq, Repr

def terminalNode : Terminal → NodeName
  | .end_ => .end_node
  | .exception => .exception_node

/-- A dispatch graph: an entry node and, given the executed node result, the
transition relation as a successor function (none = no outgoing edge). -/
structure Graph where
  entry : NodeName
  step : NodeResult → NodeName → Option NodeName

/-- Modelled from the spec: build_graph wires the fixed two-edge graph:
remote_agent transitions to the terminal chosen by its NodeResult, and the
terminals end_node and exception_node have no outgoing edges (section 4.2).
Pure construction, no execution. -/
def build_graph : Graph :=
  { entry := .remote_agent
    step := fun result node =>
      match node with
      | .remote_agent => some (terminalNode result.next)
      | .end_node => none
      | .exception_node => none }

/-- Nodes visited when walking a graph from a node, following successor
edges until a node with no outgoing edge, bounded by fuel. -/
def walk (g : Graph) (result : NodeResult) (fuel : Nat) (node : NodeName) :
    List NodeName :=
  match fuel with
  | 0 => [node]
  | fuel + 1 =>
    match g.step result node with
    | none => [node]
    | some n => node :: walk g result fuel n

/-- Modelled from the spec: invoke_graph runs the entry node synchronously to
completion and returns its terminal NodeResult (section 4.2). The HTTP POST
is modelled by the endpoint parameter mapping the single built request to its
outcome; exactly one request is issued (section 4.2 step 2). -/
def invoke_graph (thread_input : ThreadInput) (config : GraphConfig)
    (graph : Graph) (endpoint : HttpRequest → HttpOutcome) : NodeResult :=
  node_remote_agent (endpoint (buildRequest thread_input config))

/-- The requests issued by one invoke_graph call: the single built request,
never retried (section 4.2 step 2). -/
def invoke_graph_requests (thread_input : ThreadInput) (config : GraphConfig) :
    List HttpRequest :=
  [buildRequest thread_input config]

/-- Two sequential invoke_graph calls with identical thread_input and config
against an endpoint that may carry internal state across calls. -/
def invoke_graph_twice {S : Type} (thread_input : ThreadInput)
    (config : GraphConfig) (s0 : S)
    (endpoint : S → HttpRequest → HttpOutcome × S) : NodeResult × NodeResult :=
  let req := buildRequest thread_input config
  let first := endpoint s0 req
  let second := endpoint first.2 req
  (node_remote_agent first.1, node_remote_agent second.1)

/-- An endpoint is deterministic when the outcome it returns for a request
does not depend on its internal state. -/
def DeterministicEndpoint {S : Type}
    (endpoint : S → HttpRequest → HttpOutcome × S) : Prop :=
  ∀ s s' req, (endpoint s req).1 = (endpoint s' req).1

/-- The output.messages field is an array holding an assistant entry. -/
def messagesOk (out : List (String × Json)) : Bool :=
  match lookupField out "messages" with
  | some (.arr entries) => (assistantContent entries).isSome
  | _ => false

/-- The output field is an object whose messages are well-formed. -/
def outputOk (fields : List (String × Json)) : Bool :=
  match lookupField fields "output" with
  | some (.obj out) => messagesOk out
  | _ => false

/-- A success-status response body is schema-valid when it is a JSON object
with agent_id present, output.messages present as an array, and an
assistant entry with string content (section 4.2 steps 5-6). -/
def schemaOk (body : Option Json) : Bool :=
  match body with
  | some (.obj fields) => (lookupField fields "agent_id").isSome && outputOk fields
  | _ => false

/-! Part 2: the logging_config module, embedded from
src/ap_rest_client/logging_config.py. -/

/-- The msg slot of a LogRecord: either a plain message (any non-dict value,
rendered to a string by record.getMessage) or a dict. -/
inductive MsgValue where
  | text (s : String)
  | dict (entries : List (String × Json))

/-- The exc_info triple: exception type name (None possible), exception
value rendered to a string (None possible), and the formatted traceback. -/
structure ExcInfo where
  exc_type : Option String
  exc_value : Option String
  stack_trace : String

/-- The fields of logging.LogRecord that JSONFormatter.format reads. -/
structure LogRecord where
  msg : MsgValue
  levelname : String
  module : String
  funcName : String
  lineno : Nat
  name : String
  process : Nat
  created : Nat
  exc_info : Option ExcInfo

/-- Python dict item assignment d[key] = v: overwrites the value in place if
the key is present, appends the pair otherwise. -/
def dictInsert (d : List (String × Json)) (key : String) (v : Json) :
    List (String × Json) :=
  if d.any (fun p => p.1 = key) then
    d.map (fun p => if p.1 = key then (key, v) else p)
  else d ++ [(key, v)]

/-- Python dict.update(new): item assignment for each pair of new in order. -/
def dictUpdate (d new : List (String × Json)) : List (String × Json) :=
  new.foldl (fun acc p => dictInsert acc p.1 p.2) d

/-- Embeds JSONFormatter.format_time: ISO-8601 rendering of record.created,
abstracted to an injective rendering of the timestamp. -/
def format_time (record : LogRecord) : String :=
  toString record.created

/-- The list of the seven standard metadata keys that format writes after
merging record.msg. -/
def standardKeys : List String :=
  ["timestamp", "level", "module", "function", "line", "logger", "pid"]

/-- The dict of the seven standard metadata fields that format applies by
dict.update after merging record.msg. -/
def standardMetadata (record : LogRecord) : List (String × Json) :=
  [("timestamp", .str (format_time record)),
   ("level", .str record.levelname),
   ("module", .str record.module),
   ("function", .str record.funcName),
   ("line", .num (record.lineno : Int)),
   ("logger", .str record.name),
   ("pid", .num (record.process : Int))]

/-- The initial log_data of format: a dict msg is merged directly, any other
msg is stored as a string under message. -/
def formatBase (record : LogRecord) : List (String × Json) :=
  match record.msg with
  | .dict entries => dictUpdate [] entries
  | .text s => dictInsert [] "message" (.str s)

/-- The error object that format assigns under the error key when exc_info
is set: exception type name (UnknownException when the type is None), the
exception message (a default when the value is None) and the traceback. -/
def errorObject (e : ExcInfo) : Json :=
  .obj [("type", .str (e.exc_type.getD "UnknownException")),
        ("message", .str (e.exc_value.getD "No exception message")),
        ("stack_trace", .str e.stack_trace)]

namespace JSONFormatter

/-- Embeds JSONFormatter.format, up to the final json.dumps serialization:
the log_data dict it assembles. A dict msg is merged first, a non-dict msg
is stored under message; the seven standard metadata fields are then applied
by dict.update; finally, when exc_info is set, the error object is assigned. -/
def format (record : LogRecord) : List (String × Json) :=
  match record.exc_info with
  | some e =>
    dictInsert (dictUpdate (formatBase record) (standardMetadata record))
      "error" (errorObject e)
  | none => dictUpdate (formatBase record) (standardMetadata record)

end JSONFormatter

/-- Filesystem and logging state threaded through the logging_config
functions: whether the logs directory exists, the contents of
logs/graph_client.log under the current working directory (none when the
file is absent), whether unlinking that file is permitted, and the errors
logged via logging.error. -/
structure FSState where
  logsDirExists : Bool
  logFileContents : Option (List String)
  unlinkPermitted : Bool
  loggedErrors : List String
deriving DecidableEq, Repr

/-- A Python call that either returns a value or raises a named exception,
together with the state it leaves behind. -/
inductive PyResult (α : Type) where
  | ok (value : α) (fs : FSState)
  | raised (excName : String) (fs : FSState)
deriving DecidableEq, Repr

/-- Embeds get_log_dir: ensures logs/ exists under the current working
directory and returns its path. -/
def get_log_dir (fs : FSState) : String × FSState :=
  ("logs", { fs with logsDirExists := true })

/-- Embeds get_log_file: computes logs/graph_client.log, unlinks it when it
exists, and on PermissionError logs the error and re-raises. -/
def get_log_file (fs : FSState) : PyResult String :=
  let dir := get_log_dir fs
  let logFile := dir.1 ++ "/graph_client.log"
  match dir.2.logFileContents with
  | some _ =>
    if dir.2.unlinkPermitted then
      .ok logFile { dir.2 with logFileContents := none }
    else
      .raised "PermissionError"
        { dir.2 with
          loggedErrors := dir.2.loggedErrors ++ ["PermissionError: " ++ logFile] }
  | none => .ok logFile dir.2

/-- Embeds get_log_level: LOG_LEVEL environment variable, defaulting to
INFO, upper-cased. -/
def get_log_level (env : Option String) : String :=
  (env.getD "INFO").toUpper

/-- One handler entry of the configuration dict. -/
structure HandlerConfig where
  level : String
  cls : String
  formatter : String
  filename : Option String
deriving DecidableEq, Repr

/-- One logger entry of the configuration dict. -/
structure LoggerConfig where
  handlers : List String
  level : String
  propagate : Bool
deriving DecidableEq, Repr

/-- The dictConfig-style configuration dictionary. -/
structure LoggingConfig where
  version : Nat
  disable_existing_loggers : Bool
  formatters : List String
  handlers : List (String × HandlerConfig)
  loggers : List (String × LoggerConfig)
  root : LoggerConfig
deriving DecidableEq, Repr

/-- Embeds get_logging_config: json formatter, console and file handlers,
the explicitly wired graph_client logger with propagate false, and the root
logger with both handlers. -/
def get_logging_config (log_file : String) (log_level : String) :
    LoggingConfig :=
  { version := 1
    disable_existing_loggers := false
    formatters := ["json"]
    handlers :=
      [("console",
        { level := log_level, cls := "logging.StreamHandler",
          formatter := "json", filename := none }),
       ("file",
        { level := log_level, cls := "logging.FileHandler",
          formatter := "json", filename := some log_file })]
    loggers :=
      [("graph_client",
        { handlers := ["console", "file"], level := log_level,
          propagate := false })]
    root := { handlers := ["console", "file"], level := log_level,
              propagate := true } }

def lookupLogger (cfg : LoggingConfig) (name : String) : Option LoggerConfig :=
  match cfg.loggers.find? (fun p => p.1 = name) with
  | some p => some p.2
  | none => none

/-- Handlers that records emitted on a top-level logger reach under Python
logging semantics (a logger absent from the configured loggers has no
dedicated handlers and propagates to the root logger; a configured logger
adds the root handlers only when propagate is true). -/
def handlersFor (cfg : LoggingConfig) (name : String) : List String :=
  match lookupLogger cfg name with
  | some lc => if lc.propagate then lc.handlers ++ cfg.root.handlers else lc.handlers
  | none => cfg.root.handlers

/-- A logging.Logger, identified by its name. -/
structure Logger where
  name : String
deriving DecidableEq, Repr

/-- Effect of logging.config.dictConfig on the filesystem: the FileHandler
opens the log file (append mode), creating it empty when absent. -/
def dictConfig (cfg : LoggingConfig) (fs : FSState) : FSState :=
  if (cfg.handlers.find? (fun p => p.1 = "file")).isSome then
    match fs.logFileContents with
    | some _ => fs
    | none => { fs with logFileContents := some [] }
  else fs

/-- Embeds configure_logging: get_log_file (re-raising its PermissionError),
get_log_level, get_logging_config, dictConfig, then the local_agent logger
logs the initialization line and is returned. -/
def configure_logging (env : Option String) (fs : FSState) :
    PyResult (Logger × LoggingConfig) :=
  match get_log_file fs with
  | .raised e fs1 => .raised e fs1
  | .ok log_file fs1 =>
    let log_level := get_log_level env
    let cfg := get_logging_config log_file log_level
    let fs2 := dictConfig cfg fs1
    let fs3 := { fs2 with
      logFileContents :=
        fs2.logFileContents.map (fun ls => ls ++ ["Client logging is initialized."]) }
    .ok ({ name := "local_agent" }, cfg) fs3

/-! Concrete fixtures mirroring the unit test
tests/test_ap_protocol.py (test_node_remote_agent_success). -/

/-- The mocked success response body of the unit test. -/
def mockBody : Json :=
  .obj [("agent_id", .str "test_agent"),
        ("output", .obj [("messages",
          .arr [.obj [("role", .str "assistant"), ("content", .str "Hello!")]])]),
        ("model", .str "gpt-4o"),
        ("metadata", .obj [])]

/-- The thread input of the unit test: one human message plus github
extended info. -/
def testThreadInput : ThreadInput :=
  build_thread_input [{ role := .human, content := "Hi" }]
    [("github", .obj [("repo_url", .null), ("github_token", .null),
                      ("branch", .null)])]

/-- The graph config of the unit test. -/
def testConfig : GraphConfig :=
  { rest_timeout := 30
    remote_agent :=
      { id := "remote_agent", url := "http://example.com",
        model := "gpt-4o", metadata := [] }
    thread_id := none }

/-- Extraction of update["messages"]["content"] from a NodeResult. -/
def updateMessagesContent (r : NodeResult) : Option Json :=
  match lookupField r.update "messages" with
  | some (.obj fields) => lookupField fields "content"
  | _ => none

/-! Theorems. First, lemmas about the Python dict model. -/

theorem lookupField_overwrite (d : List (String × Json)) (k : String) (v : Json)
    (h : d.any (fun p => p.1 = k) = true) :
    lookupField (d.map (fun p => if p.1 = k then (k, v) else p)) k = some v := by
  induction d with
  | nil => simp at h
  | cons p rest ih =>
    obtain ⟨pk, pv⟩ := p
    simp only [List.any_cons, Bool.or_eq_true, decide_eq_true_eq] at h
    by_cases hp : pk = k
    · subst hp
      simp [List.map_cons, lookupField]
    · rcases h with h | h
      · exact absurd h hp
      · simp [List.map_cons, lookupField, hp, ih h]

theorem lookupField_append_last (d : List (String × Json)) (k : String) (v : Json)
    (h : d.any (fun p => p.1 = k) = false) :
    lookupField (d ++ [(k, v)]) k = some v := by
  induction d with
  | nil => simp [lookupField]
  | cons p rest ih =>
    obtain ⟨pk, pv⟩ := p
    simp only [List.any_cons, Bool.or_eq_false_iff, decide_eq_false_iff_not] at h
    simp only [List.cons_append, lookupField]
    rw [if_neg h.1]
    exact ih (by simpa using h.2)

theorem lookupField_dictInsert_self (d : List (String × Json)) (k : String) (v : Json) :
    lookupField (dictInsert d k v) k = some v := by
  unfold dictInsert
  by_cases h : d.any (fun p => p.1 = k)
  · rw [if_pos h]
    exact lookupField_overwrite d k v h
  · rw [if_neg h]
    exact lookupField_append_last d k v (Bool.eq_false_iff.mpr h)

theorem lookupField_dictInsert_ne (d : List (String × Json)) (k : String) (v : Json)
    (k' : String) (hne : k' ≠ k) :
    lookupField (dictInsert d k v) k' = lookupField d k' := by
  unfold dictInsert
  by_cases h : d.any (fun p => p.1 = k)
  · rw [if_pos h]
    clear h
    induction d with
    | nil => rfl
    | cons p rest ih =>
      obtain ⟨pk, pv⟩ := p
      by_cases hp : pk = k
      · subst hp
        simp only [List.map_cons, lookupField]
        simp [Ne.symm hne, ih]
      · simp only [List.map_cons, lookupField]
        rw [if_neg hp]
        simp only [lookupField]
        by_cases hp' : pk = k'
        · rw [if_pos hp', if_pos hp']
        · rw [if_neg hp', if_neg hp']
          exact ih
  · rw [if_neg h]
    clear h
    induction d with
    | nil =>
      simp only [List.nil_append, lookupField]
      rw [if_neg (fun hk : k = k' => hne hk.symm)]
    | cons p rest ih =>
      simp only [List.cons_append, lookupField]
      by_cases hp : p.1 = k'
      · rw [if_pos hp, if_pos hp]
      · rw [if_neg hp, if_neg hp]
        exact ih

theorem lookupField_dictUpdate_notMem (new : List (String × Json)) (k : String)
    (h : k ∉ new.map Prod.fst) (d : List (String × Json)) :
    lookupField (dictUpdate d new) k = lookupField d k := by
  induction new generalizing d with
  | nil => rfl
  | cons p rest ih =>
    rw [List.map_cons] at h
    have h1 : k ≠ p.1 := fun hk => h (hk ▸ List.mem_cons_self _ _)
    have h2 : k ∉ rest.map Prod.fst := fun hk => h (List.mem_cons_of_mem _ hk)
    have step : dictUpdate d (p :: rest) = dictUpdate (dictInsert d p.1 p.2) rest := rfl
    rw [step, ih h2]
    exact lookupField_dictInsert_ne d p.1 p.2 k h1

theorem lookupField_dictUpdate_mem (new : List (String × Json)) (k : String) (v : Json)
    (hnodup : (new.map Prod.fst).Nodup) (hget : lookupField new k = some v)
    (d : List (String × Json)) :
    lookupField (dictUpdate d new) k = some v := by
  induction new generalizing d with
  | nil => simp [lookupField] at hget
  | cons p rest ih =>
    obtain ⟨pk, pv⟩ := p
    rw [List.map_cons, List.nodup_cons] at hnodup
    have step : dictUpdate d ((pk, pv) :: rest) = dictUpdate (dictInsert d pk pv) rest := rfl
    rw [step]
    by_cases hp : pk = k
    · subst hp
      simp only [lookupField, if_pos rfl] at hget
      injection hget with hv
      subst hv
      rw [lookupField_dictUpdate_notMem rest pk hnodup.1]
      exact lookupField_dictInsert_self d pk pv
    · simp only [lookupField] at hget
      rw [if_neg hp] at hget
      exact ih hnodup.2 hget (dictInsert d pk pv)

theorem lookupField_mem_keys (d : List (String × Json)) (k : String) (v : Json)
    (h : lookupField d k = some v) : k ∈ d.map Prod.fst := by
  induction d with
  | nil => simp [lookupField] at h
  | cons p rest ih =>
    simp only [lookupField] at h
    by_cases hp : p.1 = k
    · rw [List.map_cons]
      exact List.mem_cons.mpr (Or.inl hp.symm)
    · rw [if_neg hp] at h
      exact List.mem_cons_of_mem _ (ih h)

theorem standardMetadata_keys (record : LogRecord) :
    (standardMetadata record).map Prod.fst = standardKeys := rfl

theorem format_exc_none (record : LogRecord) (h : record.exc_info = none) :
    JSONFormatter.format record
      = dictUpdate (formatBase record) (standardMetadata record) := by
  unfold JSONFormatter.format
  rw [h]

theorem format_exc_some (record : LogRecord) (e : ExcInfo)
    (h : record.exc_info = some e) :
    JSONFormatter.format record
      = dictInsert (dictUpdate (formatBase record) (standardMetadata record))
          "error" (errorObject e) := by
  unfold JSONFormatter.format
  rw [h]

theorem formatBase_dict (record : LogRecord) (entries : List (String × Json))
    (h : record.msg = .dict entries) : formatBase record = dictUpdate [] entries := by
  unfold formatBase
  rw [h]

theorem format_lookup_standard (record : LogRecord) (k : String) (v : Json)
    (hget : lookupField (standardMetadata record) k = some v) :
    lookupField (JSONFormatter.format record) k = some v := by
  have hmem : k ∈ standardKeys := by
    have h := lookupField_mem_keys _ _ _ hget
    rwa [standardMetadata_keys] at h
  have hne : k ≠ "error" := by
    intro hk
    subst hk
    exact absurd hmem (by decide)
  have hnd : ((standardMetadata record).map Prod.fst).Nodup := by
    rw [standardMetadata_keys]
    decide
  cases hexc : record.exc_info with
  | none =>
    rw [format_exc_none record hexc]
    exact lookupField_dictUpdate_mem _ _ _ hnd hget _
  | some e =>
    rw [format_exc_some record e hexc]
    rw [lookupField_dictInsert_ne _ _ _ _ hne]
    exact lookupField_dictUpdate_mem _ _ _ hnd hget _

/-- C8 (amended): JSONFormatter.format always emits the seven standard
metadata keys timestamp, level, module, function, line, logger and pid with
the values drawn from the record, and when record.msg is a dict its entries
are included unchanged in the output, except that the seven standard keys
are overwritten by the record metadata (the update comes after the merge),
and, when exc_info is present, the error key is overwritten by the
exception object. -/
theorem C8_format_metadata_overwrites (record : LogRecord) :
    lookupField (JSONFormatter.format record) "timestamp"
        = some (.str (format_time record)) ∧
    lookupField (JSONFormatter.format record) "level"
        = some (.str record.levelname) ∧
    lookupField (JSONFormatter.format record) "module"
        = some (.str record.module) ∧
    lookupField (JSONFormatter.format record) "function"
        = some (.str record.funcName) ∧
    lookupField (JSONFormatter.format record) "line"
        = some (.num (record.lineno : Int)) ∧
    lookupField (JSONFormatter.format record) "logger"
        = some (.str record.name) ∧
    lookupField (JSONFormatter.format record) "pid"
        = some (.num (record.process : Int)) ∧
    (∀ entries k v, record.msg = MsgValue.dict entries →
      (entries.map Prod.fst).Nodup →
      lookupField entries k = some v →
      k ∉ standardKeys →
      (record.exc_info = none ∨ k ≠ "error") →
      lookupField (JSONFormatter.format record) k = some v) := by
  refine ⟨?_, ?_, ?_, ?_, ?_, ?_, ?_, ?_⟩
  · exact format_lookup_standard record _ _ rfl
  · exact format_lookup_standard record _ _ rfl
  · exact format_lookup_standard record _ _ rfl
  · exact format_lookup_standard record _ _ rfl
  · exact format_lookup_standard record _ _ rfl
  · exact format_lookup_standard record _ _ rfl
  · exact format_lookup_standard record _ _ rfl
  · intro entries k v hmsg hnd hget hks hexcok
    have hbase : lookupField (formatBase record) k = some v := by
      rw [formatBase_dict record entries hmsg]
      exact lookupField_dictUpdate_mem _ _ _ hnd hget []
    have hmeta :
        lookupField (dictUpdate (formatBase record) (standardMetadata record)) k
          = some v := by
      rw [lookupField_dictUpdate_notMem (standardMetadata record) k
        (by rw [standardMetadata_keys]; exact hks)]
      exact hbase
    cases hexc : record.exc_info with
    | none =>
      rw [format_exc_none record hexc]
      exact hmeta
    | some e =>
      rcases hexcok with hnone | hne
      · rw [hnone] at hexc
        cases hexc
      · rw [format_exc_some record e hexc, lookupField_dictInsert_ne _ _ _ _ hne]
        exact hmeta

/-- C8 witness: at a concrete record with a dict msg, the custom entry is
kept, and the pid entry of the dict is overwritten by the record pid. -/
theorem C8_format_metadata_overwrites_witness :
    lookupField
      (JSONFormatter.format
        { msg := .dict [("custom", Json.null), ("pid", Json.str "shadow")],
          levelname := "INFO", module := "m", funcName := "f", lineno := 1,
          name := "n", process := 7, created := 3, exc_info := none })
      "custom" = some Json.null ∧
    lookupField
      (JSONFormatter.format
        { msg := .dict [("custom", Json.null), ("pid", Json.str "shadow")],
          levelname := "INFO", module := "m", funcName := "f", lineno := 1,
          name := "n", process := 7, created := 3, exc_info := none })
      "pid" = some (Json.num 7) :=
  ⟨(C8_format_metadata_overwrites _).2.2.2.2.2.2.2
      [("custom", Json.null), ("pid", Json.str "shadow")] "custom" Json.null
      rfl (by decide) rfl (by decide) (Or.inl rfl),
   (C8_format_metadata_overwrites _).2.2.2.2.2.2.1⟩

/-- C8 counterexample: the claim as stated says every entry of a dict msg
outside the seven standard metadata keys is included in the output; for a
record whose dict msg holds an error entry and whose exc_info is set, the
error entry is overwritten by the exception object, so the claim fails. -/
theorem C8_counterexample :
    ("error", Json.str "x") ∈ ([("error", Json.str "x")] : List (String × Json)) ∧
    "error" ∉ standardKeys ∧
    lookupField
      (JSONFormatter.format
        { msg := .dict [("error", Json.str "x")],
          levelname := "ERROR", module := "m", funcName := "f", lineno := 1,
          name := "n", process := 2, created := 3,
          exc_info := some { exc_type := some "ValueError",
                             exc_value := some "boom", stack_trace := "tb" } })
      "error" ≠ some (Json.str "x") :=
  ⟨List.mem_cons.mpr (Or.inl rfl), by decide,
   fun h => Json.noConfusion (Option.some.inj h)⟩

/-- C9: get_log_file removes an existing logs/graph_client.log before
returning its path, and when the unlink is denied it logs the error and
raises PermissionError; configure_logging therefore starts every invocation
from an erased log file (the post-state contents hold only the fresh
initialization line) and fails fast with PermissionError when it cannot
delete the old file. -/
theorem C9_get_log_file_removes (fs : FSState) (env : Option String) :
    (∀ p fs', get_log_file fs = .ok p fs' →
      p = "logs/graph_client.log" ∧ fs'.logFileContents = none) ∧
    (∀ e fs', get_log_file fs = .raised e fs' →
      e = "PermissionError" ∧
      fs'.loggedErrors
        = fs.loggedErrors ++ ["PermissionError: logs/graph_client.log"]) ∧
    (fs.logFileContents.isSome = true → fs.unlinkPermitted = false →
      ∃ fs', configure_logging env fs = .raised "PermissionError" fs') ∧
    (∀ lg fs', configure_logging env fs = .ok lg fs' →
      fs'.logFileContents = some ["Client logging is initialized."]) := by
  obtain ⟨dirE, contents, perm, errs⟩ := fs
  cases contents with
  | none =>
    cases perm <;>
      simp [get_log_file, get_log_dir, configure_logging, get_log_level,
        get_logging_config, dictConfig]
  | some lines =>
    cases perm <;>
      simp [get_log_file, get_log_dir, configure_logging, get_log_level,
        get_logging_config, dictConfig]

/-- C9 witness: with a present log file and unlink denied, configure_logging
raises PermissionError; with unlink permitted, the post-state log file holds
only the initialization line. -/
theorem C9_get_log_file_removes_witness :
    (∃ fs', configure_logging none
      { logsDirExists := true, logFileContents := some ["old"],
        unlinkPermitted := false, loggedErrors := [] }
      = .raised "PermissionError" fs') ∧
    (∀ lg fs', configure_logging none
      { logsDirExists := true, logFileContents := some ["old"],
        unlinkPermitted := true, loggedErrors := [] }
      = .ok lg fs' →
      fs'.logFileContents = some ["Client logging is initialized."]) :=
  ⟨(C9_get_log_file_removes
      { logsDirExists := true, logFileContents := some ["old"],
        unlinkPermitted := false, loggedErrors := [] } none).2.2.1 rfl rfl,
   (C9_get_log_file_removes
      { logsDirExists := true, logFileContents := some ["old"],
        unlinkPermitted := true, loggedErrors := [] } none).2.2.2⟩

/-- C10: configure_logging returns the logger named local_agent, which is
not the graph_client logger; the configuration dict wires graph_client with
the console and file handlers and propagate false, has no entry for
local_agent, and local_agent reaches the handlers only because it
propagates to the root logger, which holds them. -/
theorem C10_configure_logging_returns_local_agent (log_file log_level : String)
    (env : Option String) (fs : FSState) :
    lookupLogger (get_logging_config log_file log_level) "local_agent" = none ∧
    lookupLogger (get_logging_config log_file log_level) "graph_client"
      = some { handlers := ["console", "file"], level := log_level,
               propagate := false } ∧
    (get_logging_config log_file log_level).root.handlers
      = ["console", "file"] ∧
    handlersFor (get_logging_config log_file log_level) "local_agent"
      = (get_logging_config log_file log_level).root.handlers ∧
    (∀ lg cfg fs', configure_logging env fs = .ok (lg, cfg) fs' →
      lg.name = "local_agent" ∧ lg.name ≠ "graph_client") := by
  refine ⟨rfl, rfl, rfl, rfl, ?_⟩
  intro lg cfg fs' h
  obtain ⟨dirE, contents, perm, errs⟩ := fs
  cases contents with
  | none =>
    simp [configure_logging, get_log_file, get_log_dir, get_log_level,
      get_logging_config, dictConfig] at h
    obtain ⟨⟨hlg, -⟩, -⟩ := h
    rw [← hlg]
    exact ⟨rfl, by decide⟩
  | some lines =>
    cases perm with
    | false =>
      simp [configure_logging, get_log_file, get_log_dir] at h
    | true =>
      simp [configure_logging, get_log_file, get_log_dir, get_log_level,
        get_logging_config, dictConfig] at h
      obtain ⟨⟨hlg, -⟩, -⟩ := h
      rw [← hlg]
      exact ⟨rfl, by decide⟩

/-- C10 witness: at a concrete filesystem state, configure_logging succeeds
and its returned logger is named local_agent, not graph_client. -/
theorem C10_configure_logging_returns_local_agent_witness :
    ({ name := "local_agent" } : Logger).name = "local_agent" ∧
    ({ name := "local_agent" } : Logger).name ≠ "graph_client" :=
  (C10_configure_logging_returns_local_agent "logs/graph_client.log" "INFO"
      none
      { logsDirExists := false, logFileContents := none,
        unlinkPermitted := true, loggedErrors := [] }).2.2.2.2
    { name := "local_agent" }
    (get_logging_config ("logs" ++ "/graph_client.log") (get_log_level none))
    { logsDirExists := true, logFileContents := some ["Client logging is initialized."],
      unlinkPermitted := true, loggedErrors := [] }
    rfl

theorem walk_terminal_halts (r : NodeResult) (fuel : Nat) (term : Terminal) :
    walk build_graph r fuel (terminalNode term) = [terminalNode term] := by
  cases fuel with
  | zero => cases term <;> rfl
  | succ n => cases term <;> rfl

theorem walk_entry (r : NodeResult) (fuel : Nat) :
    walk build_graph r (fuel + 1) NodeName.remote_agent
      = [NodeName.remote_agent, terminalNode r.next] := by
  have hstep : build_graph.step r NodeName.remote_agent
      = some (terminalNode r.next) := rfl
  simp only [walk, hstep]
  rw [walk_terminal_halts]

theorem extractAssistant_schema_error (entries : List Json)
    (h : (assistantContent entries).isSome = false) :
    (extractAssistant entries).next = Terminal.exception ∧
    lookupField (extractAssistant entries).update "kind"
      = some (Json.str "schema_error") := by
  simp only [extractAssistant]
  cases ha : assistantContent entries with
  | none => exact ⟨rfl, rfl⟩
  | some c => rw [ha] at h; cases h

theorem classifyMessages_schema_error (out : List (String × Json))
    (h : messagesOk out = false) :
    (classifyMessages out).next = Terminal.exception ∧
    lookupField (classifyMessages out).update "kind"
      = some (Json.str "schema_error") := by
  simp only [messagesOk] at h
  simp only [classifyMessages]
  cases hm : lookupField out "messages" with
  | none => exact ⟨rfl, rfl⟩
  | some jm =>
    rw [hm] at h
    cases jm with
    | null => exact ⟨rfl, rfl⟩
    | str s => exact ⟨rfl, rfl⟩
    | num n => exact ⟨rfl, rfl⟩
    | boolean b => exact ⟨rfl, rfl⟩
    | obj o => exact ⟨rfl, rfl⟩
    | arr entries => exact extractAssistant_schema_error entries h

theorem classifyFields_schema_error (fields : List (String × Json))
    (h : ((lookupField fields "agent_id").isSome && outputOk fields) = false) :
    (classifyFields fields).next = Terminal.exception ∧
    lookupField (classifyFields fields).update "kind"
      = some (Json.str "schema_error") := by
  simp only [classifyFields]
  cases hid : lookupField fields "agent_id" with
  | none => exact ⟨rfl, rfl⟩
  | some idv =>
    rw [hid] at h
    simp only [Option.isSome_some, Bool.true_and] at h
    simp only [outputOk] at h
    cases hout : lookupField fields "output" with
    | none => exact ⟨rfl, rfl⟩
    | some jout =>
      rw [hout] at h
      cases jout with
      | null => exact ⟨rfl, rfl⟩
      | str s => exact ⟨rfl, rfl⟩
      | num n => exact ⟨rfl, rfl⟩
      | boolean b => exact ⟨rfl, rfl⟩
      | arr xs => exact ⟨rfl, rfl⟩
      | obj out => exact classifyMessages_schema_error out h

theorem classifyBody_schema_error (body : Option Json)
    (hb : schemaOk body = false) :
    (classifyBody body).next = Terminal.exception ∧
    lookupField (classifyBody body).update "kind"
      = some (Json.str "schema_error") := by
  cases body with
  | none => exact ⟨rfl, rfl⟩
  | some j =>
    cases j with
    | null => exact ⟨rfl, rfl⟩
    | str s => exact ⟨rfl, rfl⟩
    | num n => exact ⟨rfl, rfl⟩
    | boolean b => exact ⟨rfl, rfl⟩
    | arr xs => exact ⟨rfl, rfl⟩
    | obj fields =>
      simp only [schemaOk] at hb
      exact classifyFields_schema_error fields hb

/-- C1: for the mocked successful HTTP response of the unit test (status
200, body holding one assistant message Hello!), invoke_graph returns the
end terminal and the update satisfies messages.content = Hello!. -/
theorem C1_invoke_graph_success :
    (invoke_graph testThreadInput testConfig build_graph
        (fun _ => .response 200 (some mockBody))).next = Terminal.end_ ∧
    updateMessagesContent
      (invoke_graph testThreadInput testConfig build_graph
        (fun _ => .response 200 (some mockBody)))
      = some (Json.str "Hello!") :=
  ⟨rfl, rfl⟩

/-- C2: every invocation reaches exactly one terminal (the NodeResult tag
is end or exception), the graph makes exactly one hop from the entry node
remote_agent to that terminal, and no transition leaves a terminal. -/
theorem C2_one_terminal_one_hop (thread_input : ThreadInput)
    (config : GraphConfig) (endpoint : HttpRequest → HttpOutcome) (fuel : Nat) :
    ((invoke_graph thread_input config build_graph endpoint).next
        = Terminal.end_ ∨
     (invoke_graph thread_input config build_graph endpoint).next
        = Terminal.exception) ∧
    walk build_graph (invoke_graph thread_input config build_graph endpoint)
        (fuel + 1) build_graph.entry
      = [NodeName.remote_agent,
         terminalNode
           (invoke_graph thread_input config build_graph endpoint).next] ∧
    (∀ term : Terminal,
      build_graph.step (invoke_graph thread_input config build_graph endpoint)
        (terminalNode term) = none) := by
  refine ⟨?_, ?_, ?_⟩
  · cases h : (invoke_graph thread_input config build_graph endpoint).next with
    | end_ => exact Or.inl rfl
    | exception => exact Or.inr rfl
  · exact walk_entry _ fuel
  · intro term
    cases term <;> rfl

/-- C3: a transport-level failure yields the exception terminal with
update kind transport_error; the NodeResult is returned normally (the
embedded dispatch is a total function, no fault propagates), exactly one
request is issued, and the result depends only on the outcome of that
single request (no internal retry). -/
theorem C3_transport_error (thread_input : ThreadInput) (config : GraphConfig)
    (message : String) :
    (invoke_graph thread_input config build_graph
        (fun _ => .transportError message)).next = Terminal.exception ∧
    lookupField
      (invoke_graph thread_input config build_graph
        (fun _ => .transportError message)).update "kind"
      = some (Json.str "transport_error") ∧
    (invoke_graph_requests thread_input config).length = 1 ∧
    (∀ endpoint endpoint' : HttpRequest → HttpOutcome,
      endpoint (buildRequest thread_input config)
          = endpoint' (buildRequest thread_input config) →
      invoke_graph thread_input config build_graph endpoint
        = invoke_graph thread_input config build_graph endpoint') := by
  refine ⟨rfl, rfl, rfl, ?_⟩
  intro endpoint endpoint' h
  unfold invoke_graph
  rw [h]

/-- C3 witness: the transport failure of the commented-out unit test, at the
concrete thread input and config. -/
theorem C3_transport_error_witness :
    (invoke_graph testThreadInput testConfig build_graph
        (fun _ => .transportError "Connection error")).next
      = Terminal.exception ∧
    lookupField
      (invoke_graph testThreadInput testConfig build_graph
        (fun _ => .transportError "Connection error")).update "kind"
      = some (Json.str "transport_error") ∧
    invoke_graph testThreadInput testConfig build_graph
        (fun _ => .transportError "Connection error")
      = invoke_graph testThreadInput testConfig build_graph
          (fun r => .transportError "Connection error") :=
  ⟨(C3_transport_error testThreadInput testConfig "Connection error").1,
   (C3_transport_error testThreadInput testConfig "Connection error").2.1,
   (C3_transport_error testThreadInput testConfig "Connection error").2.2.2
     _ _ rfl⟩

/-- C4: for every success-status response whose body fails to parse, lacks
agent_id or output.messages, or holds no assistant entry, invoke_graph
returns the exception terminal with update kind schema_error. -/
theorem C4_schema_error (thread_input : ThreadInput) (config : GraphConfig)
    (status : Nat) (body : Option Json)
    (hs : isSuccessStatus status = true) (hb : schemaOk body = false) :
    (invoke_graph thread_input config build_graph
        (fun _ => .response status body)).next = Terminal.exception ∧
    lookupField
      (invoke_graph thread_input config build_graph
        (fun _ => .response status body)).update "kind"
      = some (Json.str "schema_error") := by
  have h := classifyBody_schema_error body hb
  unfold invoke_graph node_remote_agent
  simp only [hs, if_true]
  exact h

/-- C4 witness: a 200 response whose body does not parse as JSON. -/
theorem C4_schema_error_witness :
    isSuccessStatus 200 = true ∧ schemaOk none = false ∧
    (invoke_graph testThreadInput testConfig build_graph
        (fun _ => .response 200 none)).next = Terminal.exception ∧
    lookupField
      (invoke_graph testThreadInput testConfig build_graph
        (fun _ => .response 200 none)).update "kind"
      = some (Json.str "schema_error") :=
  ⟨rfl, rfl,
   (C4_schema_error testThreadInput testConfig 200 none rfl rfl).1,
   (C4_schema_error testThreadInput testConfig 200 none rfl rfl).2⟩

theorem messageFromJson_messageToJson (m : Message) :
    messageFromJson (messageToJson m) = some m := by
  obtain ⟨role, content⟩ := m
  cases role <;> rfl

/-- C5: build_thread_input keeps every input message, in the original
order, unmodified: the ThreadInput messages equal the input, the payload
messages field is their JSON rendering in order, and each rendering parses
back to the original message. -/
theorem C5_build_thread_input_preserves (messages : List Message)
    (extended_info : List (String × Json)) (hne : messages ≠ []) :
    (build_thread_input messages extended_info).messages = messages ∧
    lookupField (threadPayloadFields (build_thread_input messages extended_info))
        "messages" = some (.arr (messages.map messageToJson)) ∧
    (messages.map messageToJson).map messageFromJson = messages.map some := by
  have aux : ∀ ms : List Message,
      (ms.map messageToJson).map messageFromJson = ms.map some := by
    intro ms
    induction ms with
    | nil => rfl
    | cons m rest ih =>
      simp only [List.map_cons, messageFromJson_messageToJson m, ih]
  exact ⟨rfl, rfl, aux messages⟩

/-- C5 witness: the single human message of the unit test. -/
theorem C5_build_thread_input_preserves_witness :
    (build_thread_input [{ role := .human, content := "Hi" }] []).messages
      = [{ role := .human, content := "Hi" }] ∧
    lookupField
      (threadPayloadFields (build_thread_input
        [{ role := .human, content := "Hi" }] [])) "messages"
      = some (.arr [messageToJson { role := .human, content := "Hi" }]) ∧
    ([{ role := .human, content := "Hi" }].map messageToJson).map messageFromJson
      = [{ role := .human, content := "Hi" }].map some :=
  C5_build_thread_input_preserves [{ role := .human, content := "Hi" }] []
    (by decide)

/-- C6: extended_info keys stay nested under their own sub-key in the
payload: the reserved messages field is exactly the rendered message list
whatever extended_info holds, and any other key resolves to the caller
value unchanged. -/
theorem C6_extended_info_nested (messages : List Message)
    (extended_info : List (String × Json)) (k : String)
    (hk : k ≠ "messages") :
    lookupField (threadPayloadFields (build_thread_input messages extended_info))
        "messages" = some (.arr (messages.map messageToJson)) ∧
    lookupField (threadPayloadFields (build_thread_input messages extended_info)) k
      = lookupField extended_info k := by
  refine ⟨rfl, ?_⟩
  show lookupField (("messages", Json.arr (messages.map messageToJson))
      :: extended_info) k = lookupField extended_info k
  simp only [lookupField]
  rw [if_neg (fun h : "messages" = k => hk h.symm)]

/-- C6 witness: the github sub-key of the unit test thread input resolves
to the caller value. -/
theorem C6_extended_info_nested_witness :
    lookupField (threadPayloadFields testThreadInput) "github"
      = lookupField testThreadInput.extended_info "github" :=
  (C6_extended_info_nested testThreadInput.messages
    testThreadInput.extended_info "github" (by decide)).2

/-- C7: two invoke_graph calls with identical thread_input and config
against a deterministic endpoint yield the same NodeResult: same terminal
and same update mapping. -/
theorem C7_two_run_determinism {S : Type} (thread_input : ThreadInput)
    (config : GraphConfig) (s0 : S)
    (endpoint : S → HttpRequest → HttpOutcome × S)
    (hdet : DeterministicEndpoint endpoint) :
    (invoke_graph_twice thread_input config s0 endpoint).1
      = (invoke_graph_twice thread_input config s0 endpoint).2 := by
  show node_remote_agent (endpoint s0 (buildRequest thread_input config)).1
      = node_remote_agent
          (endpoint (endpoint s0 (buildRequest thread_input config)).2
            (buildRequest thread_input config)).1
  exact congrArg node_remote_agent (hdet _ _ _)

/-- C7 witness: a concrete stateless mocked endpoint. -/
theorem C7_two_run_determinism_witness :
    (invoke_graph_twice testThreadInput testConfig ()
        (fun _ _ => (.transportError "down", ()))).1
      = (invoke_graph_twice testThreadInput testConfig ()
          (fun _ _ => (.transportError "down", ()))).2 :=
  C7_two_run_determinism testThreadInput testConfig ()
    (fun _ _ => (.transportError "down", ())) (fun _ _ _ => rfl)
